import Mathlib

/-!
A shallow embedding of the conference-import pipeline of
`src/pyvideo_import/importers.py`, together with theorems checking the
natural-language specification against it.  External capabilities (the
jq query engine, HTTP, the filesystem, the yt-dlp listing) are modelled
as explicit oracle parameters handed to the embedded functions; the
Python functions themselves are translated directly, and machine-level
effects (file writes, directory creation) are reified as explicit
effect lists in program order.
-/

namespace PyvideoImport

/-- JSON-compatible values, the currency of the pipeline: the `RawRecord`
and talk-record JSON handled by `json.load`, jq and `json.dump`. -/
inductive JVal where
  | jnull : JVal
  | jbool : Bool → JVal
  | jnum : Int → JVal
  | jstr : String → JVal
  | jarr : List JVal → JVal
  | jobj : List (String × JVal) → JVal

/-- The Python exceptions the embedded pipeline code can raise:
`StopIteration` (from `jq.first` on an empty result stream), `KeyError`
(missing dict key), `TypeError`, `IndexError` (from `split("v=")[1]` at
importers.py line 97), and a JSON/YAML parse failure of a source file
(the spec's `ExtractionError`). -/
inductive PErr where
  | stopIteration : PErr
  | keyError : String → PErr
  | typeError : PErr
  | indexError : PErr
  | extractionError : String → PErr
deriving DecidableEq

/-! ## The YouTube link backfiller (importers.py lines 54-101) -/

/-- A character matched by Python's regex class `\w` (ASCII fragment):
alphanumeric or underscore.  `re.sub(r"[^\w]", "", s)` keeps exactly
these characters. -/
def isWordChar (c : Char) : Bool :=
  c.isAlphanum || c == '_'

/-- `re.sub(r"[^\w]", "", s)` as used at importers.py lines 76 and 88. -/
def stripNonWord (s : String) : String :=
  String.mk (s.data.filter isWordChar)

/-- Python `str.lower` (ASCII fragment). -/
def lowerStr (s : String) : String :=
  String.mk (s.data.map Char.toLower)

/-- `modified_talk_title = re.sub(r"[^\w]", "", obj["title"]).lower()`
(importers.py line 76). -/
def normalizeTalkTitle (title : String) : String :=
  lowerStr (stripNonWord title)

/-- Worker for Python `str.replace(old, new)`: scans the text left to
right replacing each non-overlapping occurrence of `sep`; `fuel` bounds
the recursion and is always sufficient at the call site in
`pyReplace`. -/
def pyReplaceGo (sep rep : List Char) : Nat → List Char → List Char
  | _, [] => []
  | 0, rest => rest
  | fuel + 1, c :: rest =>
    if sep.isPrefixOf (c :: rest) then
      rep ++ pyReplaceGo sep rep fuel (List.drop (sep.length - 1) rest)
    else
      c :: pyReplaceGo sep rep fuel rest

/-- Python `str.replace(old, new)`.  An empty `old` leaves the string
unchanged, which agrees with Python when `new` is also empty — the only
way the embedded code calls it. -/
def pyReplace (sep rep s : List Char) : List Char :=
  if sep.isEmpty then s else pyReplaceGo sep rep s.length s

/-- `s.replace(old, new)` on `String`s. -/
def strReplace (s old new : String) : String :=
  String.mk (pyReplace old.data new.data s.data)

/-- Normalization applied to a listing entry title (importers.py lines
84-88): remove every occurrence of the conference name, then of each
speaker name in order, then strip non-word characters and lowercase. -/
def normalizeEntryTitle (conference_name : String) (speakers : List String)
    (title : String) : String :=
  let t1 := strReplace title conference_name ""
  let t2 := speakers.foldl (fun acc sp => strReplace acc sp "") t1
  lowerStr (stripNonWord t2)

/-- Length of a longest common subsequence of two character lists, with
explicit fuel; always called with fuel equal to the total length, which
suffices because every recursive call shortens the lists. -/
def lcsFuel : Nat → List Char → List Char → Nat
  | 0, _, _ => 0
  | _ + 1, [], _ => 0
  | _ + 1, _, [] => 0
  | fuel + 1, a :: as, b :: bs =>
    if a == b then lcsFuel fuel as bs + 1
    else max (lcsFuel fuel (a :: as) bs) (lcsFuel fuel as (b :: bs))

/-- Longest-common-subsequence length of two character lists. -/
def lcsLen (a b : List Char) : Nat :=
  lcsFuel (a.length + b.length) a b

/-- Round `num / den` to the nearest integer, ties to even — Python's
one-argument `round`. -/
def roundHalfEven (num den : Nat) : Nat :=
  let q := num / den
  let r := num % den
  if 2 * r < den then q
  else if den < 2 * r then q + 1
  else if q % 2 = 0 then q else q + 1

/-- `thefuzz.fuzz.ratio` (importers.py line 90): the normalized Indel
similarity as a percentage rounded to an integer, that is
`round(200 * lcs(a, b) / (len a + len b))`, and `100` when both strings
are empty. -/
def simScore (a b : String) : Nat :=
  let total := a.length + b.length
  if total = 0 then 100 else roundHalfEven (200 * lcsLen a.data b.data) total

/-- One element of a record's `videos` list: `{"type": ..., "url": ...}`
(importers.py lines 91-94). -/
structure Video where
  type : String
  url : String
deriving DecidableEq

/-- A talk record as `backfill_video_url` sees it: a JSON object with
the fields the function reads (`title`, `speakers`) and writes
(`videos`, `thumbnail_url`); `other` collects all remaining fields,
which the function never touches. -/
structure TalkRecord where
  title : String
  speakers : List String
  videos : List Video
  thumbnail_url : Option String
  other : List (String × String)
deriving DecidableEq

/-- A non-null element of the fetched listing's `entries`, with the two
fields the backfiller reads. -/
structure Entry where
  title : String
  webpage_url : String
deriving DecidableEq

/-- Python `url.split("v=")`, specialized to the two-character separator
`"v="` used at importers.py line 97: splits at each non-overlapping
occurrence, scanning left to right. -/
def splitVEq : List Char → List (List Char)
  | [] => [[]]
  | [c] => [[c]]
  | c1 :: c2 :: rest =>
    if c1 == 'v' && c2 == '=' then [] :: splitVEq rest
    else
      match splitVEq (c2 :: rest) with
      | [] => [[c1]]
      | h :: t => (c1 :: h) :: t

/-- Whether the two-character sequence `"v="` occurs in the list. -/
def containsVEq : List Char → Bool
  | [] => false
  | [_] => false
  | c1 :: c2 :: rest => (c1 == 'v' && c2 == '=') || containsVEq (c2 :: rest)

/-- The segment of a character list before the first occurrence of
`"v="` — the whole list when there is none. -/
def beforeVEq : List Char → List Char
  | [] => []
  | [c] => [c]
  | c1 :: c2 :: rest =>
    if c1 == 'v' && c2 == '=' then []
    else c1 :: beforeVEq (c2 :: rest)

/-- `fuzz.ratio(modified_talk_title, modified_video_title)` for a given
record and entry, composing the two normalizations of importers.py
lines 76 and 84-88. -/
def entryScore (conference_name : String) (obj : TalkRecord) (e : Entry) : Nat :=
  simScore (normalizeTalkTitle obj.title)
    (normalizeEntryTitle conference_name obj.speakers e.title)

/-- True when a listing slot is `None` or scores at most 75 against the
record — exactly the slots the loop in `backfill_video_url` passes
over. -/
def entryBelowThreshold (conference_name : String) (obj : TalkRecord) :
    Option Entry → Bool
  | none => true
  | some e => decide (entryScore conference_name obj e ≤ 75)

/-- The `for entry in data['entries']` loop of `backfill_video_url`
(importers.py lines 79-100): skip `None` entries, take the first entry
scoring strictly above 75, set `videos` and `thumbnail_url` from it and
stop; `entry["webpage_url"].split("v=")[1]` raises `IndexError` when the
URL contains no `"v="`, aborting the run (in Python the dict's `videos`
key has been assigned at that point, but the exception propagates and
the record is discarded, so the returned-value model is faithful to the
observable behavior). -/
def backfillLoop (conference_name : String) (obj : TalkRecord) :
    List (Option Entry) → Except PErr TalkRecord
  | [] => .ok obj
  | none :: rest => backfillLoop conference_name obj rest
  | some e :: rest =>
    if entryScore conference_name obj e > 75 then
      match (splitVEq e.webpage_url.data).get? 1 with
      | some vid =>
        .ok { obj with
              videos := [⟨"youtube", e.webpage_url⟩],
              thumbnail_url :=
                some ("https://i.ytimg.com/vi/" ++ String.mk vid ++ "/hqdefault.jpg") }
      | none => .error .indexError
    else backfillLoop conference_name obj rest

/-- `YouTubeLinkBackfiller.backfill_video_url` (importers.py lines
75-101), with the fetched listing's `entries` passed explicitly in
place of the cached `fetch_data()` result. -/
def backfill_video_url (conference_name : String)
    (entries : List (Option Entry)) (obj : TalkRecord) : Except PErr TalkRecord :=
  backfillLoop conference_name obj entries

/-! ## The filter/transform stage (importers.py lines 152-272) -/

/-- `jq.first(program, text)`: the first value the jq program produces,
`StopIteration` when it produces none. -/
def jqFirst (results : List JVal) : Except PErr JVal :=
  match results with
  | [] => .error .stopIteration
  | v :: _ => .ok v

/-- `JSONTransformer.transform_talk_json` and the textually identical
`MultiJSONTransformer.transform_talk_json` (importers.py lines 228-232
and 251-255): evaluate the configured jq filter — modelled as the
function from the record to the stream of values the program produces —
and take the first result. -/
def transform_talk_json (jq_filter : JVal → List JVal) (talk_json : JVal) :
    Except PErr JVal :=
  jqFirst (jq_filter talk_json)

/-- Shape test used to state claims: is a JSON value an object
(mapping)? -/
def isMapping : JVal → Bool
  | .jobj _ => true
  | _ => false

/-- The postprocess chain, applied left to right
(`for func in (self.postprocess or []): video = func(video)`,
importers.py lines 223-224 and 269-270); each step may raise. -/
def applyChain : List (JVal → Except PErr JVal) → JVal → Except PErr JVal
  | [], v => .ok v
  | f :: fs, v =>
    match f v with
    | .error e => .error e
    | .ok v2 => applyChain fs v2

/-- Transform one record then run the postprocess chain on it — the
tail of the loop body shared by both `extract_talk_list` methods. -/
def transformAndPost (jq_filter : JVal → List JVal)
    (postprocess : List (JVal → Except PErr JVal)) (video : JVal) :
    Except PErr JVal :=
  match transform_talk_json jq_filter video with
  | .error e => .error e
  | .ok tj => applyChain postprocess tj

/-- The per-record body shared verbatim by
`JSONTransformer.extract_talk_list` (importers.py lines 219-224) and
`MultiJSONTransformer.extract_talk_list` (lines 265-270): `none` when
the configured predicate exists and rejects the record
(`if self.filter_func and not self.filter_func(video): continue`),
otherwise the transform/postprocess outcome. -/
def processOne (filter_func : Option (JVal → Bool))
    (jq_filter : JVal → List JVal)
    (postprocess : List (JVal → Except PErr JVal)) (video : JVal) :
    Option (Except PErr JVal) :=
  match filter_func with
  | some f =>
    if f video then some (transformAndPost jq_filter postprocess video)
    else none
  | none => some (transformAndPost jq_filter postprocess video)

/-- The loop of `JSONTransformer.extract_talk_list` over the extracted
video list (importers.py lines 219-226): skipped records contribute
nothing, the first raised exception aborts, otherwise the processed
records are collected in order. -/
def processVideos (filter_func : Option (JVal → Bool))
    (jq_filter : JVal → List JVal)
    (postprocess : List (JVal → Except PErr JVal)) :
    List JVal → Except PErr (List JVal)
  | [] => .ok []
  | v :: rest =>
    match processOne filter_func jq_filter postprocess v with
    | none => processVideos filter_func jq_filter postprocess rest
    | some (.error e) => .error e
    | some (.ok tv) =>
      match processVideos filter_func jq_filter postprocess rest with
      | .error e => .error e
      | .ok tl => .ok (tv :: tl)

/-- `MultiJSONTransformer.extract_talk_list` (importers.py lines
257-272): each globbed file is loaded in order — `self.load` may raise
a parse error, so the oracle list holds each file's parse outcome —
converted (`convert_talk_object_to_dict` is the identity for JSON and
YAML), filtered, transformed and postprocessed. -/
def multi_extract_talk_list (filter_func : Option (JVal → Bool))
    (jq_filter : JVal → List JVal)
    (postprocess : List (JVal → Except PErr JVal)) :
    List (Except PErr JVal) → Except PErr (List JVal)
  | [] => .ok []
  | .error e :: _ => .error e
  | .ok video :: rest =>
    match processOne filter_func jq_filter postprocess video with
    | none => multi_extract_talk_list filter_func jq_filter postprocess rest
    | some (.error e) => .error e
    | some (.ok tv) =>
      match multi_extract_talk_list filter_func jq_filter postprocess rest with
      | .error e => .error e
      | .ok tl => .ok (tv :: tl)

/-- A raw record passes the configured inclusion predicate (vacuously
when none is configured). -/
def accepted (filter_func : Option (JVal → Bool)) (r : JVal) : Prop :=
  ∀ f, filter_func = some f → f r = true

/-! ## The catalog writer `BaseTransformer.transform`
(importers.py lines 168-188) -/

/-- `video_json["title"]` as used by `BaseTransformer.transform` (line
185): a `KeyError` when the key is missing, a `TypeError` when the
record is not an object or the title is not a string. -/
def titleOf : JVal → Except PErr String
  | .jobj fields =>
    match fields.lookup "title" with
    | some (.jstr s) => .ok s
    | some _ => .error .typeError
    | none => .error (.keyError "title")
  | _ => .error .typeError

/-- Collapse runs of hyphens to a single hyphen. -/
def collapseDash : List Char → List Char
  | [] => []
  | '-' :: rest =>
    match collapseDash rest with
    | '-' :: t => '-' :: t
    | t => '-' :: t
  | c :: rest => c :: collapseDash rest

/-- Models `slugify.slugify` on ASCII titles: lowercase, every maximal
run of non-alphanumeric characters becomes a single hyphen, and leading
and trailing hyphens are dropped. -/
def slugify (s : String) : String :=
  let mapped := s.data.map fun c => if c.isAlphanum then c.toLower else '-'
  let trimmed :=
    (((collapseDash mapped).dropWhile (· == '-')).reverse.dropWhile (· == '-')).reverse
  String.mk trimmed

/-- Filesystem effects of `BaseTransformer.transform` (importers.py
lines 178-188), reified in program order. -/
inductive OutputOp where
  | mkdirOutput : OutputOp
  | mkdirVideos : OutputOp
  | writeCategory : String → OutputOp
  | writeVideo : String → JVal → OutputOp

/-- The write loop of `BaseTransformer.transform` (lines 184-188): one
JSON file per record, named by the slug of its title; a record without
a usable title raises, keeping the writes made up to that point.  The
pair is (writes performed, error the loop ended with, if any). -/
def writeTalks : List JVal → List OutputOp × Option PErr
  | [] => ([], none)
  | t :: rest =>
    match titleOf t with
    | .error e => ([], some e)
    | .ok title =>
      let next := writeTalks rest
      (OutputOp.writeVideo (slugify title ++ ".json") t :: next.1, next.2)

/-- `BaseTransformer.transform` (importers.py lines 168-188): create the
output directory and its `videos/` subdirectory, write `category.json`,
then call `extract_talk_list` (whose outcome is passed in, since the
extractor is a subclass hook) and write one file per extracted record.
The pair returned is the list of filesystem effects performed in order
together with the error the run raised, if any. -/
def transformRun (conference_name : String)
    (extracted : Except PErr (List JVal)) : List OutputOp × Option PErr :=
  let pre := [OutputOp.mkdirOutput, OutputOp.mkdirVideos,
              OutputOp.writeCategory conference_name]
  match extracted with
  | .error e => (pre, some e)
  | .ok talks =>
    let w := writeTalks talks
    (pre ++ w.1, w.2)

/-- The filenames of the per-video files among a list of effects. -/
def videoFilenames : List OutputOp → List String
  | [] => []
  | OutputOp.writeVideo fn _ :: rest => fn :: videoFilenames rest
  | _ :: rest => videoFilenames rest

/-! ## The single-document downloader `JSONAPIDownloader`
(importers.py lines 131-141) -/

/-- A network-level failure of `requests.get` (connection error and the
like); `requests` raises these and `JSONAPIDownloader.download` does
not catch them. -/
inductive NetErr where
  | connectionError : String → NetErr
deriving DecidableEq

/-- An HTTP response as `requests` returns it: a status code and the
decoded body text; `requests` considers a response `ok` when the status
is below 400 and does not raise for client or server error statuses
unless `raise_for_status` is called, which the code never does. -/
structure HttpResponse where
  status_code : Nat
  text : String
deriving DecidableEq

/-- `requests.get(self.url)` — the network is an oracle giving the
outcome of the i-th GET issued; `requests.get` performs exactly one. -/
def requests_get (net : Nat → Except NetErr HttpResponse) :
    Except NetErr HttpResponse :=
  net 0

/-- `JSONAPIDownloader.download` (importers.py lines 136-141): a single
GET; on success `response.text` is written to the file named `save_as`
and the filename is returned.  The result pairs the filename with the
content written to it. -/
def download (save_as : String) (net : Nat → Except NetErr HttpResponse) :
    Except NetErr (String × String) :=
  match requests_get net with
  | .error e => .error e
  | .ok resp => .ok (save_as, resp.text)

/-! ## Helper lemmas about the backfiller loop -/

/-- Slots that are `None` or score at most 75 are passed over by the
loop of `backfill_video_url`. -/
theorem backfillLoop_append (conference_name : String) (obj : TalkRecord)
    (pre rest : List (Option Entry))
    (h : pre.all (entryBelowThreshold conference_name obj) = true) :
    backfillLoop conference_name obj (pre ++ rest) =
      backfillLoop conference_name obj rest := by
  induction pre with
  | nil => rfl
  | cons oe pre ih =>
    rw [List.all_cons, Bool.and_eq_true] at h
    cases oe with
    | none =>
      simp only [List.cons_append, backfillLoop]
      exact ih h.2
    | some e =>
      have hle : entryScore conference_name obj e ≤ 75 := by
        simpa [entryBelowThreshold] using h.1
      have hng : ¬ entryScore conference_name obj e > 75 := by omega
      simp only [List.cons_append, backfillLoop, if_neg hng]
      exact ih h.2

/-- The loop of `backfill_video_url` stops at the first entry scoring
above 75: the result is determined by that entry's URL alone. -/
theorem backfill_first_match_eq (conference_name : String) (obj : TalkRecord)
    (pre post : List (Option Entry)) (e : Entry)
    (hpre : pre.all (entryBelowThreshold conference_name obj) = true)
    (hmatch : entryScore conference_name obj e > 75) :
    backfill_video_url conference_name (pre ++ some e :: post) obj =
      match (splitVEq e.webpage_url.data).get? 1 with
      | some vid =>
        .ok { obj with
              videos := [⟨"youtube", e.webpage_url⟩],
              thumbnail_url :=
                some ("https://i.ytimg.com/vi/" ++ String.mk vid ++ "/hqdefault.jpg") }
      | none => .error .indexError := by
  unfold backfill_video_url
  rw [backfillLoop_append conference_name obj pre (some e :: post) hpre]
  simp only [backfillLoop, if_pos hmatch]

/-- A character list free of `"v="` is not split. -/
theorem splitVEq_of_not_contains : ∀ s : List Char,
    containsVEq s = false → splitVEq s = [s]
  | [], _ => rfl
  | [_], _ => rfl
  | c1 :: c2 :: rest, h => by
    rw [containsVEq, Bool.or_eq_false_iff] at h
    have ih := splitVEq_of_not_contains (c2 :: rest) h.2
    simp only [splitVEq, if_neg (by simp [h.1] : ¬ (c1 == 'v' && c2 == '=') = true)]
    rw [ih]

/-- Splitting at an explicit first `"v="` marker isolates the prefix. -/
theorem splitVEq_append_marker : ∀ (a b : List Char), containsVEq a = false →
    splitVEq (a ++ 'v' :: '=' :: b) = a :: splitVEq b
  | [], b, _ => by simp [splitVEq]
  | [c], b, _ => by simp [splitVEq]
  | c1 :: c2 :: rest, b, h => by
    rw [containsVEq, Bool.or_eq_false_iff] at h
    have ih := splitVEq_append_marker (c2 :: rest) b h.2
    simp only [List.cons_append] at ih ⊢
    simp only [splitVEq, if_neg (by simp [h.1] : ¬ (c1 == 'v' && c2 == '=') = true)]
    rw [ih]

/-- The first field of `split("v=")` is the segment before the first
occurrence of `"v="`. -/
theorem splitVEq_head : ∀ b : List Char, ∃ t, splitVEq b = beforeVEq b :: t
  | [] => ⟨[], rfl⟩
  | [c] => ⟨[], rfl⟩
  | c1 :: c2 :: rest => by
    by_cases hc : (c1 == 'v' && c2 == '=') = true
    · exact ⟨splitVEq rest, by simp only [splitVEq, beforeVEq, if_pos hc]⟩
    · obtain ⟨t, ht⟩ := splitVEq_head (c2 :: rest)
      refine ⟨t, ?_⟩
      simp only [splitVEq, beforeVEq, if_neg hc]
      rw [ht]

/-! ## Claims about the backfiller -/

/-- C1, counterexample: the claim attaches the matched entry's URL as a
`videos` entry of type `"youtube-equivalent"`, but the code stores the
literal type tag `"youtube"` (importers.py line 92): on a listing whose
first entry matches exactly, the attached entry's type is `"youtube"`,
which is not the string `"youtube-equivalent"`. -/
theorem c1_counterexample :
    backfill_video_url "" [some ⟨"Widgets", "https://y.example/watch?v=abc"⟩]
      ⟨"Widgets", [], [], none, []⟩ =
      .ok ⟨"Widgets", [], [⟨"youtube", "https://y.example/watch?v=abc"⟩],
           some "https://i.ytimg.com/vi/abc/hqdefault.jpg", []⟩ ∧
    ("youtube" : String) ≠ "youtube-equivalent" :=
  ⟨rfl, by decide⟩

/-- C1 (amended: the attached `videos` entry has the literal type
`"youtube"`, and the thumbnail derivation presupposes the matched URL
contains `"v="`): scanning in listing order, the backfiller selects the
first non-null entry whose similarity score against the normalized talk
title is strictly greater than 75, attaches exactly that entry's URL as
the single `videos` entry of type `"youtube"` together with a thumbnail
URL derived from it, and never looks at any later entry (the suffix
`post` is arbitrary). -/
theorem c1_first_match_attaches (conference_name : String) (obj : TalkRecord)
    (pre post : List (Option Entry)) (e : Entry) (vid : List Char)
    (hpre : pre.all (entryBelowThreshold conference_name obj) = true)
    (hmatch : entryScore conference_name obj e > 75)
    (hvid : (splitVEq e.webpage_url.data).get? 1 = some vid) :
    backfill_video_url conference_name (pre ++ some e :: post) obj =
      .ok { obj with
            videos := [⟨"youtube", e.webpage_url⟩],
            thumbnail_url :=
              some ("https://i.ytimg.com/vi/" ++ String.mk vid ++ "/hqdefault.jpg") } := by
  rw [backfill_first_match_eq conference_name obj pre post e hpre hmatch, hvid]

/-- C1, witness: a concrete listing with a `None` slot, a low-scoring
entry, the exact match, and a later entry that would also match; the
first match wins. -/
theorem c1_witness :
    backfill_video_url "PyCon UK 2022"
      [none, some ⟨"zzzz", "https://y.example/watch?v=zzz"⟩,
       some ⟨"Widgets", "https://y.example/watch?v=abc"⟩,
       some ⟨"Widgets", "https://y.example/watch?v=later"⟩]
      ⟨"Widgets", [], [], none, []⟩ =
      .ok ⟨"Widgets", [], [⟨"youtube", "https://y.example/watch?v=abc"⟩],
           some "https://i.ytimg.com/vi/abc/hqdefault.jpg", []⟩ :=
  c1_first_match_attaches "PyCon UK 2022" ⟨"Widgets", [], [], none, []⟩
    [none, some ⟨"zzzz", "https://y.example/watch?v=zzz"⟩]
    [some ⟨"Widgets", "https://y.example/watch?v=later"⟩]
    ⟨"Widgets", "https://y.example/watch?v=abc"⟩ "abc".data
    (by decide) (by decide) (by decide)

/-- C5, counterexample: the claim says normalization removes all
non-alphanumeric characters, but the code's regex `[^\w]` keeps the
underscore, which is not alphanumeric: the talk title `"a_b"` is
normalized to `"a_b"`, underscore included. -/
theorem c5_counterexample :
    normalizeTalkTitle "a_b" = "a_b" ∧ Char.isAlphanum '_' = false :=
  ⟨rfl, rfl⟩

/-- C5 (amended: normalization removes every character that is neither
alphanumeric nor underscore — regex word characters, underscore
included, survive — and lowercases the rest; an entry title first has
every occurrence of the conference name and then of each speaker's name
removed as substrings, and only then is stripped and lowercased). -/
theorem c5_normalization (title conference_name entryTitle : String)
    (speakers : List String) :
    (normalizeTalkTitle title).data =
      (title.data.filter fun c => c.isAlphanum || c == '_').map Char.toLower ∧
    (normalizeEntryTitle conference_name speakers entryTitle).data =
      ((speakers.foldl (fun acc sp => strReplace acc sp "")
          (strReplace entryTitle conference_name "")).data.filter
        fun c => c.isAlphanum || c == '_').map Char.toLower :=
  ⟨rfl, rfl⟩

/-- C6: when every non-null entry of the listing scores at most 75
against the record, the backfiller returns the record unmodified and
raises nothing. -/
theorem c6_no_match_pass_through (conference_name : String) (obj : TalkRecord)
    (entries : List (Option Entry))
    (h : entries.all (entryBelowThreshold conference_name obj) = true) :
    backfill_video_url conference_name entries obj = .ok obj := by
  have happ := backfillLoop_append conference_name obj entries [] h
  simpa [backfill_video_url, backfillLoop] using happ

/-- C6, witness: a record with existing videos, thumbnail and other
fields passes through a listing of a `None` slot and a low-scoring
entry byte-for-byte unchanged. -/
theorem c6_witness :
    backfill_video_url "PyCon UK 2022"
      [none, some ⟨"zzzz", "https://y.example/watch?v=zzz"⟩]
      ⟨"Widgets", ["Jane Doe"], [⟨"youtube", "https://old.example/watch?v=old"⟩],
       some "oldthumb", [("description", "d")]⟩ =
      .ok ⟨"Widgets", ["Jane Doe"], [⟨"youtube", "https://old.example/watch?v=old"⟩],
           some "oldthumb", [("description", "d")]⟩ :=
  c6_no_match_pass_through "PyCon UK 2022"
    ⟨"Widgets", ["Jane Doe"], [⟨"youtube", "https://old.example/watch?v=old"⟩],
     some "oldthumb", [("description", "d")]⟩
    [none, some ⟨"zzzz", "https://y.example/watch?v=zzz"⟩] (by decide)

/-- C9: on a first match the backfiller changes only `videos` and
`thumbnail_url`: title, speakers and all other fields are returned
unchanged, and `videos` becomes exactly the one-element list for the
matched entry whatever videos the record already had. -/
theorem c9_frame_and_replace (conference_name : String) (obj : TalkRecord)
    (pre post : List (Option Entry)) (e : Entry) (vid : List Char)
    (hpre : pre.all (entryBelowThreshold conference_name obj) = true)
    (hmatch : entryScore conference_name obj e > 75)
    (hvid : (splitVEq e.webpage_url.data).get? 1 = some vid) :
    ∃ r, backfill_video_url conference_name (pre ++ some e :: post) obj = .ok r ∧
      r.title = obj.title ∧ r.speakers = obj.speakers ∧ r.other = obj.other ∧
      r.videos = [⟨"youtube", e.webpage_url⟩] ∧
      r.thumbnail_url =
        some ("https://i.ytimg.com/vi/" ++ String.mk vid ++ "/hqdefault.jpg") := by
  refine ⟨{ obj with
            videos := [⟨"youtube", e.webpage_url⟩],
            thumbnail_url :=
              some ("https://i.ytimg.com/vi/" ++ String.mk vid ++ "/hqdefault.jpg") },
          ?_, rfl, rfl, rfl, rfl, rfl⟩
  rw [backfill_first_match_eq conference_name obj pre post e hpre hmatch, hvid]

/-- C9, witness: a record that already contains a video link and a
thumbnail still has its whole `videos` list replaced by the matched
entry, with every other field untouched. -/
theorem c9_witness :
    ∃ r, backfill_video_url "" [some ⟨"Widgets", "https://y.example/watch?v=abc"⟩]
        ⟨"Widgets", ["Jane"], [⟨"youtube", "https://old.example/watch?v=old"⟩],
         some "oldthumb", [("description", "d")]⟩ = .ok r ∧
      r.title = "Widgets" ∧ r.speakers = ["Jane"] ∧
      r.other = [("description", "d")] ∧
      r.videos = [⟨"youtube", "https://y.example/watch?v=abc"⟩] ∧
      r.thumbnail_url = some "https://i.ytimg.com/vi/abc/hqdefault.jpg" :=
  c9_frame_and_replace "" ⟨"Widgets", ["Jane"],
      [⟨"youtube", "https://old.example/watch?v=old"⟩],
      some "oldthumb", [("description", "d")]⟩
    [] [] ⟨"Widgets", "https://y.example/watch?v=abc"⟩ "abc".data
    (by decide) (by decide) (by decide)

/-- C10, counterexample: the claim says the thumbnail embeds the
substring of the URL after the first occurrence of `"v="`, but
`split("v=")[1]` stops at the next occurrence: for the matched URL
`"https://e.com/watch?v=abv=cd"` the substring after the first `"v="`
is `"abv=cd"`, while the code embeds only `"ab"`. -/
theorem c10_counterexample :
    backfill_video_url "" [some ⟨"Widgets", "https://e.com/watch?v=abv=cd"⟩]
      ⟨"Widgets", [], [], none, []⟩ =
      .ok ⟨"Widgets", [], [⟨"youtube", "https://e.com/watch?v=abv=cd"⟩],
           some "https://i.ytimg.com/vi/ab/hqdefault.jpg", []⟩ ∧
    ("ab" : String) ≠ "abv=cd" :=
  ⟨rfl, by decide⟩

/-- C10 (amended: the thumbnail embeds the second field of splitting
the matched URL on `"v="` — the segment after the first `"v="` up to
but excluding the next occurrence, which is everything after the first
`"v="` when it occurs only once): on a first match, if the URL contains
no `"v="` at all the backfiller raises `IndexError` instead of
returning, and otherwise the thumbnail embeds that segment. -/
theorem c10_thumbnail_derivation (conference_name : String) (obj : TalkRecord)
    (pre post : List (Option Entry)) (e : Entry) (a b : List Char)
    (hpre : pre.all (entryBelowThreshold conference_name obj) = true)
    (hmatch : entryScore conference_name obj e > 75) :
    (containsVEq e.webpage_url.data = false →
      backfill_video_url conference_name (pre ++ some e :: post) obj =
        .error .indexError) ∧
    (e.webpage_url.data = a ++ 'v' :: '=' :: b → containsVEq a = false →
      backfill_video_url conference_name (pre ++ some e :: post) obj =
        .ok { obj with
              videos := [⟨"youtube", e.webpage_url⟩],
              thumbnail_url :=
                some ("https://i.ytimg.com/vi/" ++ String.mk (beforeVEq b) ++
                  "/hqdefault.jpg") }) := by
  constructor
  · intro hno
    rw [backfill_first_match_eq conference_name obj pre post e hpre hmatch,
        splitVEq_of_not_contains _ hno]
    rfl
  · intro hab ha
    rw [backfill_first_match_eq conference_name obj pre post e hpre hmatch, hab,
        splitVEq_append_marker a b ha]
    obtain ⟨t, ht⟩ := splitVEq_head b
    rw [ht]
    rfl

/-- C10, witness: a matching entry whose URL has no `"v="` makes the
backfiller raise `IndexError`; one whose URL has a single `"v="` gets
the text after it embedded in the thumbnail URL. -/
theorem c10_witness :
    backfill_video_url "" [some ⟨"Widgets", "https://y.example/watch"⟩]
      ⟨"Widgets", [], [], none, []⟩ = .error .indexError ∧
    backfill_video_url "" [some ⟨"Widgets", "https://y.example/watch?v=abc"⟩]
      ⟨"Widgets", [], [], none, []⟩ =
      .ok ⟨"Widgets", [], [⟨"youtube", "https://y.example/watch?v=abc"⟩],
           some "https://i.ytimg.com/vi/abc/hqdefault.jpg", []⟩ := by
  constructor
  · exact (c10_thumbnail_derivation "" ⟨"Widgets", [], [], none, []⟩ [] []
      ⟨"Widgets", "https://y.example/watch"⟩ [] []
      (by decide) (by decide)).1 (by decide)
  · exact (c10_thumbnail_derivation "" ⟨"Widgets", [], [], none, []⟩ [] []
      ⟨"Widgets", "https://y.example/watch?v=abc"⟩
      "https://y.example/watch?".data "abc".data
      (by decide) (by decide)).2 (by decide) (by decide)

/-! ## Claims about the transform stage -/

/-- C2, counterexample: the claim says the transform fails with
`TransformError` whenever the query produces more than one result or a
non-mapping result, but `transform_talk_json` is `jq.first`: on a query
producing the two non-mapping values `"a"` and `"b"` it succeeds and
returns `"a"`. -/
theorem c2_counterexample :
    transform_talk_json (fun _ => [JVal.jstr "a", JVal.jstr "b"]) (JVal.jobj []) =
      .ok (JVal.jstr "a") ∧ isMapping (JVal.jstr "a") = false :=
  ⟨rfl, rfl⟩

/-- C2 (amended: the transform takes the first value the query produces
and fails — with `StopIteration` from `jq.first`, there is no
`TransformError` class — exactly when the query produces zero results;
surplus results are silently ignored and the result's shape is not
checked). -/
theorem c2_first_result (jq_filter : JVal → List JVal) (talk_json : JVal) :
    (jq_filter talk_json = [] →
      transform_talk_json jq_filter talk_json = .error .stopIteration) ∧
    (∀ v vs, jq_filter talk_json = v :: vs →
      transform_talk_json jq_filter talk_json = .ok v) := by
  constructor
  · intro h
    simp [transform_talk_json, jqFirst, h]
  · intro v vs h
    simp [transform_talk_json, jqFirst, h]

/-- C2, witness: a query with no results raises `StopIteration`; a
query with two results returns the first. -/
theorem c2_witness :
    transform_talk_json (fun _ => []) (JVal.jobj []) = .error .stopIteration ∧
    transform_talk_json (fun _ => [JVal.jobj [], JVal.jnull]) JVal.jnull =
      .ok (JVal.jobj []) :=
  ⟨(c2_first_result (fun _ => []) (JVal.jobj [])).1 rfl,
   (c2_first_result (fun _ => [JVal.jobj [], JVal.jnull]) JVal.jnull).2
     (JVal.jobj []) [JVal.jnull] rfl⟩

/-- C3, counterexample: the claim says an extraction failure produces no
output files, but `BaseTransformer.transform` creates both directories
and writes `category.json` before extraction runs: a glob run over one
unparsable file raises the parse error, yet the effect list already
contains the `category.json` write. -/
theorem c3_counterexample :
    transformRun "PyCon UK 2022"
      (multi_extract_talk_list none (fun v => [v]) []
        [Except.error (PErr.extractionError "talks/bad.json")]) =
      ([OutputOp.mkdirOutput, OutputOp.mkdirVideos,
        OutputOp.writeCategory "PyCon UK 2022"],
       some (PErr.extractionError "talks/bad.json")) ∧
    OutputOp.writeCategory "PyCon UK 2022" ∈
      (transformRun "PyCon UK 2022"
        (multi_extract_talk_list none (fun v => [v]) []
          [Except.error (PErr.extractionError "talks/bad.json")])).1 := by
  constructor
  · rfl
  · simp [transformRun, multi_extract_talk_list]

/-- C3 (amended: a run whose extraction stage raises — download, parse,
transform or postprocess failure all surface out of `extract_talk_list`
before any talk file is written — writes no per-talk video file, but the
output directory, the `videos/` directory and `category.json` have
already been created, so the error leaves exactly those behind). -/
theorem c3_error_no_video_writes (conference_name : String)
    (extracted : Except PErr (List JVal)) (e : PErr)
    (hext : extracted = .error e) :
    transformRun conference_name extracted =
      ([OutputOp.mkdirOutput, OutputOp.mkdirVideos,
        OutputOp.writeCategory conference_name], some e) ∧
    (∀ fn r, OutputOp.writeVideo fn r ∉ (transformRun conference_name extracted).1) ∧
    OutputOp.writeCategory conference_name ∈
      (transformRun conference_name extracted).1 := by
  subst hext
  refine ⟨rfl, ?_, ?_⟩
  · intro fn r
    simp [transformRun]
  · simp [transformRun]

/-- C3, witness: the amended statement at a concrete extraction
error. -/
theorem c3_witness :
    transformRun "PyCon UK 2022"
      (Except.error (PErr.extractionError "talks/bad.json")) =
      ([OutputOp.mkdirOutput, OutputOp.mkdirVideos,
        OutputOp.writeCategory "PyCon UK 2022"],
       some (PErr.extractionError "talks/bad.json")) :=
  (c3_error_no_video_writes "PyCon UK 2022"
    (Except.error (PErr.extractionError "talks/bad.json"))
    (PErr.extractionError "talks/bad.json") rfl).1

/-- C4, counterexample: the claim says the download fails whenever the
HTTP status is non-success, but `JSONAPIDownloader.download` never
inspects the status: a 404 response has its body written to
`response.json` and the call returns normally (`requests` treats a
status below 400 as success, and 404 is not below 400). -/
theorem c4_counterexample :
    download "response.json" (fun _ => .ok ⟨404, "Not Found"⟩) =
      .ok ("response.json", "Not Found") ∧ ¬ (404 < 400) :=
  ⟨rfl, by omega⟩

/-- C4 (amended: exactly one GET is attempted — the outcome depends
only on the first attempt — and whatever response arrives has its body
written verbatim to the named file regardless of HTTP status; only a
network-level error from `requests.get` aborts the download, and it
propagates as the underlying exception, there being no
`SourceUnavailable` class). -/
theorem c4_single_get_always_writes (save_as : String)
    (net : Nat → Except NetErr HttpResponse) :
    (∀ net2 : Nat → Except NetErr HttpResponse, net 0 = net2 0 →
      download save_as net = download save_as net2) ∧
    (∀ resp, net 0 = .ok resp → download save_as net = .ok (save_as, resp.text)) ∧
    (∀ e, net 0 = .error e → download save_as net = .error e) := by
  refine ⟨?_, ?_, ?_⟩
  · intro net2 h
    simp [download, requests_get, h]
  · intro resp h
    simp [download, requests_get, h]
  · intro e h
    simp [download, requests_get, h]

/-- C4, witness: the amended statement at a concrete 500 response and a
concrete connection error. -/
theorem c4_witness :
    download "response.json" (fun _ => .ok ⟨500, "oops"⟩) =
      .ok ("response.json", "oops") ∧
    download "response.json" (fun _ => .error (.connectionError "refused")) =
      .error (.connectionError "refused") :=
  ⟨(c4_single_get_always_writes "response.json"
      (fun _ => .ok ⟨500, "oops"⟩)).2.1 ⟨500, "oops"⟩ rfl,
   (c4_single_get_always_writes "response.json"
      (fun _ => .error (.connectionError "refused"))).2.2
     (.connectionError "refused") rfl⟩

/-! ## Helper lemmas for the filtering claims -/

/-- A record the configured predicate rejects contributes nothing to
`JSONTransformer`'s record loop. -/
theorem processVideos_drop (f : JVal → Bool) (jq_filter : JVal → List JVal)
    (postprocess : List (JVal → Except PErr JVal)) (r : JVal)
    (hr : f r = false) : ∀ (a b : List JVal),
    processVideos (some f) jq_filter postprocess (a ++ r :: b) =
      processVideos (some f) jq_filter postprocess (a ++ b)
  | [], b => by simp [processVideos, processOne, hr]
  | v :: a, b => by
    have ih := processVideos_drop f jq_filter postprocess r hr a b
    simp only [List.cons_append, processVideos, List.append_eq]
    rw [ih]

/-- A record the configured predicate rejects contributes nothing to
`MultiJSONTransformer`'s file loop. -/
theorem multi_extract_drop (f : JVal → Bool) (jq_filter : JVal → List JVal)
    (postprocess : List (JVal → Except PErr JVal)) (r : JVal)
    (hr : f r = false) : ∀ (A B : List (Except PErr JVal)),
    multi_extract_talk_list (some f) jq_filter postprocess (A ++ .ok r :: B) =
      multi_extract_talk_list (some f) jq_filter postprocess (A ++ B)
  | [], B => by simp [multi_extract_talk_list, processOne, hr]
  | .error e :: A, B => by
    simp only [List.cons_append, multi_extract_talk_list]
  | .ok v :: A, B => by
    have ih := multi_extract_drop f jq_filter postprocess r hr A B
    simp only [List.cons_append, multi_extract_talk_list, List.append_eq]
    rw [ih]

/-- A record that reaches the transform was accepted by the configured
predicate (vacuously so when none is configured). -/
theorem processOne_accepted (filter_func : Option (JVal → Bool))
    (jq_filter : JVal → List JVal)
    (postprocess : List (JVal → Except PErr JVal))
    (v : JVal) (x : Except PErr JVal)
    (h : processOne filter_func jq_filter postprocess v = some x) :
    accepted filter_func v := by
  intro f hf
  subst hf
  cases hfv : f v with
  | false => simp [processOne, hfv] at h
  | true => rfl

/-- Every record in the output of `JSONTransformer`'s loop is the
processed image of an accepted input record. -/
theorem processVideos_provenance (filter_func : Option (JVal → Bool))
    (jq_filter : JVal → List JVal)
    (postprocess : List (JVal → Except PErr JVal)) :
    ∀ (vids out : List JVal),
    processVideos filter_func jq_filter postprocess vids = .ok out →
    ∀ o ∈ out, ∃ r ∈ vids, accepted filter_func r ∧
      processOne filter_func jq_filter postprocess r = some (.ok o)
  | [], out, h, o, ho => by
    simp only [processVideos, Except.ok.injEq] at h
    subst h
    simp at ho
  | v :: vids, out, h, o, ho => by
    cases hpo : processOne filter_func jq_filter postprocess v with
    | none =>
      simp only [processVideos, hpo] at h
      obtain ⟨r, hr, hacc, hpr⟩ :=
        processVideos_provenance filter_func jq_filter postprocess vids out h o ho
      exact ⟨r, List.mem_cons_of_mem v hr, hacc, hpr⟩
    | some x =>
      cases x with
      | error e =>
        simp only [processVideos, hpo] at h
        simp at h
      | ok tv =>
        simp only [processVideos, hpo] at h
        cases hrest : processVideos filter_func jq_filter postprocess vids with
        | error e =>
          rw [hrest] at h
          simp at h
        | ok tl =>
          rw [hrest] at h
          simp only [Except.ok.injEq] at h
          subst h
          rcases List.mem_cons.mp ho with h1 | h2
          · subst h1
            exact ⟨v, List.mem_cons_self v vids,
              processOne_accepted filter_func jq_filter postprocess v _ hpo, hpo⟩
          · obtain ⟨r, hr, hacc, hpr⟩ :=
              processVideos_provenance filter_func jq_filter postprocess vids tl
                hrest o h2
            exact ⟨r, List.mem_cons_of_mem v hr, hacc, hpr⟩

/-- Every record in the output of `MultiJSONTransformer`'s loop is the
processed image of an accepted, successfully parsed input file. -/
theorem multi_extract_provenance (filter_func : Option (JVal → Bool))
    (jq_filter : JVal → List JVal)
    (postprocess : List (JVal → Except PErr JVal)) :
    ∀ (files : List (Except PErr JVal)) (out : List JVal),
    multi_extract_talk_list filter_func jq_filter postprocess files = .ok out →
    ∀ o ∈ out, ∃ r, Except.ok r ∈ files ∧ accepted filter_func r ∧
      processOne filter_func jq_filter postprocess r = some (.ok o)
  | [], out, h, o, ho => by
    simp only [multi_extract_talk_list, Except.ok.injEq] at h
    subst h
    simp at ho
  | .error e :: files, out, h, o, ho => by
    simp only [multi_extract_talk_list] at h
    simp at h
  | .ok v :: files, out, h, o, ho => by
    cases hpo : processOne filter_func jq_filter postprocess v with
    | none =>
      simp only [multi_extract_talk_list, hpo] at h
      obtain ⟨r, hr, hacc, hpr⟩ :=
        multi_extract_provenance filter_func jq_filter postprocess files out h o ho
      exact ⟨r, List.mem_cons_of_mem _ hr, hacc, hpr⟩
    | some x =>
      cases x with
      | error e =>
        simp only [multi_extract_talk_list, hpo] at h
        simp at h
      | ok tv =>
        simp only [multi_extract_talk_list, hpo] at h
        cases hrest : multi_extract_talk_list filter_func jq_filter postprocess files with
        | error e =>
          rw [hrest] at h
          simp at h
        | ok tl =>
          rw [hrest] at h
          simp only [Except.ok.injEq] at h
          subst h
          rcases List.mem_cons.mp ho with h1 | h2
          · subst h1
            exact ⟨v, List.mem_cons_self _ files,
              processOne_accepted filter_func jq_filter postprocess v _ hpo, hpo⟩
          · obtain ⟨r, hr, hacc, hpr⟩ :=
              multi_extract_provenance filter_func jq_filter postprocess files tl
                hrest o h2
            exact ⟨r, List.mem_cons_of_mem _ hr, hacc, hpr⟩

/-- C7: in both record loops a record the configured predicate rejects
is dropped entirely — removing it from the input leaves the whole
result (output list or error) unchanged, so it contributes nothing and
raises nothing — and every record of a successful output is the
transformed image of an input record that the predicate accepted (or no
predicate was configured). -/
theorem c7_predicate_filtering (filter_func : Option (JVal → Bool))
    (jq_filter : JVal → List JVal)
    (postprocess : List (JVal → Except PErr JVal)) :
    (∀ (f : JVal → Bool) (r : JVal) (a b : List JVal),
      filter_func = some f → f r = false →
      processVideos filter_func jq_filter postprocess (a ++ r :: b) =
        processVideos filter_func jq_filter postprocess (a ++ b)) ∧
    (∀ (f : JVal → Bool) (r : JVal) (A B : List (Except PErr JVal)),
      filter_func = some f → f r = false →
      multi_extract_talk_list filter_func jq_filter postprocess (A ++ .ok r :: B) =
        multi_extract_talk_list filter_func jq_filter postprocess (A ++ B)) ∧
    (∀ vids out, processVideos filter_func jq_filter postprocess vids = .ok out →
      ∀ o ∈ out, ∃ r ∈ vids, accepted filter_func r ∧
        processOne filter_func jq_filter postprocess r = some (.ok o)) ∧
    (∀ files out,
      multi_extract_talk_list filter_func jq_filter postprocess files = .ok out →
      ∀ o ∈ out, ∃ r, Except.ok r ∈ files ∧ accepted filter_func r ∧
        processOne filter_func jq_filter postprocess r = some (.ok o)) := by
  refine ⟨?_, ?_,
    processVideos_provenance filter_func jq_filter postprocess,
    multi_extract_provenance filter_func jq_filter postprocess⟩
  · intro f r a b hf hr
    subst hf
    exact processVideos_drop f jq_filter postprocess r hr a b
  · intro f r A B hf hr
    subst hf
    exact multi_extract_drop f jq_filter postprocess r hr A B

/-- C7, witness: a rejected record (think `type == "Break"`) yields an
empty output with no error. -/
theorem c7_witness :
    processVideos (some fun _ => false) (fun v => [v]) []
      [JVal.jobj [("type", JVal.jstr "Break")]] = .ok [] :=
  ((c7_predicate_filtering (some fun _ => false) (fun v => [v]) []).1
    (fun _ => false) (JVal.jobj [("type", JVal.jstr "Break")]) [] [] rfl rfl).trans
    rfl

/-! ## Helper lemma for the catalog-writer claim -/

/-- The write loop writes one file per record, named by the slug of its
title, unconditionally. -/
theorem writeTalks_titles : ∀ (talks : List JVal) (titles : List String),
    talks.map titleOf = titles.map Except.ok →
    writeTalks talks =
      ((talks.zip titles).map
        (fun p => OutputOp.writeVideo (slugify p.2 ++ ".json") p.1), none)
  | [], [], _ => rfl
  | [], t :: ts, h => by simp at h
  | v :: talks, [], h => by simp at h
  | v :: talks, t :: ts, h => by
    simp only [List.map_cons, List.cons.injEq] at h
    have ih := writeTalks_titles talks ts h.2
    simp only [writeTalks, h.1, ih, List.zip_cons_cons, List.map_cons]

/-- C8, counterexample: the claim says no two emitted records share a
slug, but nothing enforces it: two records with the same title are both
emitted and their video files share the name `"same-talk.json"` (the
second write silently overwrites the first on disk). -/
theorem c8_counterexample :
    ¬ (videoFilenames
        (transformRun "PyCon UK 2022"
          (Except.ok [JVal.jobj [("title", JVal.jstr "Same Talk")],
                      JVal.jobj [("title", JVal.jstr "Same Talk")]])).1).Nodup := by
  decide

/-- C8 (amended: the writer derives each output filename as the slug of
the record's title and writes every extracted record unconditionally —
neither non-emptiness of titles nor uniqueness of slugs is checked, so
records sharing a slug produce colliding writes and an empty title
produces an empty slug; the invariant is the responsibility of the
configured queries, not of the code). -/
theorem c8_unconditional_slug_writes (conference_name : String)
    (talks : List JVal) (titles : List String)
    (h : talks.map titleOf = titles.map Except.ok) :
    transformRun conference_name (Except.ok talks) =
      ([OutputOp.mkdirOutput, OutputOp.mkdirVideos,
        OutputOp.writeCategory conference_name] ++
        (talks.zip titles).map
          (fun p => OutputOp.writeVideo (slugify p.2 ++ ".json") p.1), none) := by
  simp only [transformRun, writeTalks_titles talks titles h]

/-- C8, witness: two records titled `"Same Talk"` are each written to
`"same-talk.json"`. -/
theorem c8_witness :
    transformRun "PyCon UK 2022"
      (Except.ok [JVal.jobj [("title", JVal.jstr "Same Talk")],
                  JVal.jobj [("title", JVal.jstr "Same Talk")]]) =
      ([OutputOp.mkdirOutput, OutputOp.mkdirVideos,
        OutputOp.writeCategory "PyCon UK 2022",
        OutputOp.writeVideo "same-talk.json"
          (JVal.jobj [("title", JVal.jstr "Same Talk")]),
        OutputOp.writeVideo "same-talk.json"
          (JVal.jobj [("title", JVal.jstr "Same Talk")])],
       none) :=
  c8_unconditional_slug_writes "PyCon UK 2022"
    [JVal.jobj [("title", JVal.jstr "Same Talk")],
     JVal.jobj [("title", JVal.jstr "Same Talk")]]
    ["Same Talk", "Same Talk"] rfl

end PyvideoImport
